import Mathlib

/-!
# Shallow embedding of the Go package `solr` (file `solr.go`)

The file `solr.go` holds the client value `Solr`, its three public calls
`Get`, `Search`, `SearchText` and the transport `httpGet`.

Conventions of the embedding.

* A Go `string` (and the `[]byte` body, which the code only prints with `%s`
  and measures with `len`) is a Lean `String`; `len` is the byte length.
* A Go `error` is the text its `Error()` method returns; a nil `error` is
  `none`.
* The network, `encoding/json` and the declarations of the package that live
  in other files are parameters (`Runtime`, `Decls`).
* Every call returns, next to its Go results, the list of effects it
  performed (`Event`), in order.
* A run-time panic (index out of range) is `none` in `Solr.Get`.
-/

namespace solr

/-! ## Go values -/

/-- Go `error`: identified by the text of its `Error()` method. -/
structure GoError where
  text : String
deriving DecidableEq, Repr

/-- Go `errors.New`. -/
def errorsNew (msg : String) : GoError := ⟨msg⟩

/-- Go `len` of a string or byte slice: its length in bytes. -/
def len (s : String) : Nat := s.utf8ByteSize

/-- `Contains s sub`: the text `sub` occurs in `s` (Go `strings.Contains`). -/
def Contains (s sub : String) : Prop := sub.data <:+: s.data

instance (s sub : String) : Decidable (Contains s sub) :=
  inferInstanceAs (Decidable (sub.data <:+: s.data))

/-- Effects a call performs, in program order. -/
inductive Event where
  /-- the line handed to `log.Printf` -/
  | log (line : String)
  /-- one `http.Get` on the given URL -/
  | get (url : String)
  /-- the deferred `r.Body.Close()` -/
  | close
deriving DecidableEq, Repr

/-- What a Go function of result type `(α, error)` hands back, together with
the effects it performed. -/
structure Ret (α : Type) where
  val : α
  err : Option GoError
  events : List Event

/-! ## `net/http` response -/

/-- The parts of `*http.Response` that `httpGet` reads. `Body` is what
`ioutil.ReadAll(r.Body)` returns: the bytes read and the read error. -/
structure Response where
  Status : String
  StatusCode : Int
  Header : String → List String
  Body : String × Option GoError

/-! ## `fmt` and `strconv` -/

/-- The hexadecimal digits `strconv` uses (`lowerhex`). -/
def lowerhex (n : Nat) : Char := "0123456789abcdef".data.getD n '0'

/-- Go `strconv.IsPrint` on the Latin-1 range, which the library decides without
tables; above it the library consults Unicode tables, here the parameter
`wide`. -/
def IsPrint (wide : Char → Bool) (r : Char) : Bool :=
  if r.toNat ≤ 0xFF then
    if 0x20 ≤ r.toNat ∧ r.toNat ≤ 0x7E then true
    else if 0xA1 ≤ r.toNat ∧ r.toNat ≤ 0xFF then r.toNat != 0xAD
    else false
  else wide r

/-- Go `strconv.appendEscapedRune` with `quote = '"'`, `ASCIIonly = false`,
`graphicOnly = false`: the text one rune contributes to a quoted string. -/
def appendEscapedRune (wide : Char → Bool) (r : Char) : List Char :=
  if r = '"' ∨ r = '\\' then ['\\', r]
  else if IsPrint wide r then [r]
  else if r.toNat = 7 then ['\\', 'a']
  else if r.toNat = 8 then ['\\', 'b']
  else if r.toNat = 12 then ['\\', 'f']
  else if r = '\n' then ['\\', 'n']
  else if r = '\r' then ['\\', 'r']
  else if r = '\t' then ['\\', 't']
  else if r.toNat = 11 then ['\\', 'v']
  else if r.toNat < 0x20 ∨ r.toNat = 0x7f then
    ['\\', 'x', lowerhex (r.toNat / 16), lowerhex (r.toNat % 16)]
  else if r.toNat < 0x10000 then
    ['\\', 'u', lowerhex (r.toNat / 4096 % 16), lowerhex (r.toNat / 256 % 16),
      lowerhex (r.toNat / 16 % 16), lowerhex (r.toNat % 16)]
  else
    ['\\', 'U', lowerhex (r.toNat / 268435456 % 16), lowerhex (r.toNat / 16777216 % 16),
      lowerhex (r.toNat / 1048576 % 16), lowerhex (r.toNat / 65536 % 16),
      lowerhex (r.toNat / 4096 % 16), lowerhex (r.toNat / 256 % 16),
      lowerhex (r.toNat / 16 % 16), lowerhex (r.toNat % 16)]

/-- Go `strconv.Quote`, which `fmt` applies to a string printed with `%#v`: the
string between double quotes, each rune escaped by `appendEscapedRune`. -/
def Quote (wide : Char → Bool) (s : String) : String :=
  ⟨'"' :: (s.data.flatMap (appendEscapedRune wide) ++ ['"'])⟩

/-- The elements of a slice printed by `fmt` with `%s`, separated by one
space. -/
def fmtElems : List String → String
  | [] => ""
  | [x] => x
  | x :: y :: rest => x ++ " " ++ fmtElems (y :: rest)

/-- A `[]string` printed by `fmt` with `%s`: `[a b c]`. -/
def fmtStrings (xs : List String) : String := "[" ++ fmtElems xs ++ "]"

/-! ## Data model

The declarations of `Document`, `GetParams`, `SearchParams`, `SearchResponse`
and of the envelope `responseRaw` are in other files of the package. `solr.go`
reads `raw.Data.Documents`, `response.Error.Trace` and `params.Q`; everything
else those types hold is a type parameter, whose `default` stands for the Go
zero value (`Document{}`, `SearchResponse{}`, ...). -/

/-- The `Data` section of the envelope: the list `Documents` and the other
fields of the section (`δ`). -/
structure dataRaw (D δ : Type) where
  Documents : List D
  rest : δ

/-- The `Error` section of the envelope: the string `Trace` and the other
fields of the section (`ε`). -/
structure errorRaw (ε : Type) where
  Trace : String
  rest : ε

/-- The wire-level envelope: `Data`, `Error` and the other sections (`ρ`). -/
structure responseRaw (D δ ε ρ : Type) where
  Data : dataRaw D δ
  Error : errorRaw ε
  rest : ρ

/-- The zero envelope `responseRaw{}`: no documents, empty trace, every other
field zero. -/
def responseRaw.zero {D δ ε ρ : Type} [Inhabited δ] [Inhabited ε] [Inhabited ρ] :
    responseRaw D δ ε ρ :=
  ⟨⟨[], default⟩, ⟨"", default⟩, default⟩

/-- The parameters of `Get`: the query expression `Q` and the other fields
(`γ`). -/
structure GetParams (γ : Type) where
  Q : String
  rest : γ

/-- The client value. -/
structure Solr where
  CoreUrl : String
  Verbose : Bool
deriving DecidableEq, Repr

/-- The constructor `New`. -/
def New (coreUrl : String) (verbose : Bool) : Solr :=
  { CoreUrl := coreUrl, Verbose := verbose }

/-! ## Parameters: libraries, network, declarations of other files -/

/-- What `httpGet` takes from outside the package. -/
structure Runtime (D δ ε ρ : Type) where
  /-- Go `http.Get(url)`: the response, or the error of the failed request. -/
  http_Get : String → Except GoError Response
  /-- Go `json.Unmarshal(body, &response)` on the zero `response`: the value
  it leaves in `response` and the error it returns. -/
  json_Unmarshal : String → responseRaw D δ ε ρ × Option GoError
  /-- The Unicode tables of `strconv.IsPrint` above Latin-1. -/
  isPrintWide : Char → Bool
  /-- The text `%#v` prints for the error section before its `Trace` field: the
  type name, the opening brace and the fields declared before `Trace`. -/
  goSyntaxBefore : ε → String
  /-- The text `%#v` prints for the error section after its `Trace` field: the
  fields declared after `Trace` and the closing brace. -/
  goSyntaxAfter : ε → String

/-- The functions of the package that `solr.go` calls and that are declared in
other files. -/
structure Decls (D δ ε ρ γ P SR : Type) where
  /-- The method `toSolrQueryString` of `GetParams`. -/
  GetParams_toSolrQueryString : GetParams γ → String
  /-- The method `toSolrQueryString` of `SearchParams`. -/
  SearchParams_toSolrQueryString : P → String
  /-- The constructor `NewSearchParams(text, options, facets)`; a
  `map[string]string` is a list of its entries. -/
  NewSearchParams : String → List (String × String) → List (String × String) → P
  /-- The constructor `NewSearchResponse(params, raw)`. -/
  NewSearchResponse : P → responseRaw D δ ε ρ → SR

section Code

variable {D δ ε ρ γ P SR : Type}

/-- The text of `fmt.Sprintf("%#v", response.Error)`: a struct prints as
`pkg.Type{Field:value, ...}`, and its string field `Trace` as
`Trace:` followed by `strconv.Quote` of the string. -/
def goSyntax (rt : Runtime D δ ε ρ) (e : errorRaw ε) : String :=
  rt.goSyntaxBefore e.rest ++ "Trace:" ++ Quote rt.isPrintWide e.Trace ++
    rt.goSyntaxAfter e.rest

variable [Inhabited δ] [Inhabited ε] [Inhabited ρ]

/-- The transport `Solr.httpGet` (solr.go, lines 57-99). -/
def Solr.httpGet (rt : Runtime D δ ε ρ) (s : Solr) (url : String) :
    Ret (responseRaw D δ ε ρ) :=
  let logged := if s.Verbose then [Event.log ("Solr URL: " ++ url)] else []
  match rt.http_Get url with
  | .error err => ⟨responseRaw.zero, some err, logged ++ [Event.get url]⟩
  | .ok r =>
    let events := logged ++ [Event.get url, Event.close]
    match r.Body with
    | (_, some err) => ⟨responseRaw.zero, some err, events⟩
    | (body, none) =>
      if r.StatusCode < 200 ∨ r.StatusCode > 299 then
        let msg := "HTTP Status: " ++ r.Status ++ ". "
        let msg := if len body > 0 then msg ++ ("Body: " ++ body) else msg
        ⟨responseRaw.zero, some (errorsNew msg), events⟩
      else
        match rt.json_Unmarshal body with
        | (response, none) =>
          if response.Error.Trace ≠ "" then
            let msg := "Solr Error. " ++ goSyntax rt response.Error
            ⟨response, some (errorsNew msg), events⟩
          else
            ⟨response, none, events⟩
        | (response, some err) =>
          if (r.Header "Content-Type").length > 0 then
            let msg := err.text ++ ". Solr's response Content-Type: " ++
              fmtStrings (r.Header "Content-Type")
            ⟨response, some (errorsNew msg), events⟩
          else
            ⟨response, some err, events⟩

/-- The call `Solr.Get` (solr.go, lines 21-36). The result is `none` when the
index expression `raw.Data.Documents[0]` panics. -/
def Solr.Get [Inhabited D] (rt : Runtime D δ ε ρ) (dc : Decls D δ ε ρ γ P SR) (s : Solr)
    (params : GetParams γ) : Option (Ret D) :=
  let url := s.CoreUrl ++ "/select?" ++ dc.GetParams_toSolrQueryString params
  let r := s.httpGet rt url
  let raw := r.val
  let err := r.err
  if err ≠ none then
    some ⟨default, err, r.events⟩
  else
    let count := raw.Data.Documents.length
    if count = 0 then
      some ⟨default, none, r.events⟩
    else if count > 1 then
      let msg := "More than one document was found (Q=" ++ params.Q ++ ")"
      some ⟨default, some (errorsNew msg), r.events⟩
    else
      match raw.Data.Documents[0]? with
      | some d => some ⟨d, err, r.events⟩
      | none => none

/-- The call `Solr.Search` (solr.go, lines 39-46). -/
def Solr.Search [Inhabited SR] (rt : Runtime D δ ε ρ) (dc : Decls D δ ε ρ γ P SR) (s : Solr)
    (params : P) : Ret SR :=
  let url := s.CoreUrl ++ "/select?" ++ dc.SearchParams_toSolrQueryString params
  let r := s.httpGet rt url
  let raw := r.val
  let err := r.err
  if err ≠ none then
    ⟨default, err, r.events⟩
  else
    ⟨dc.NewSearchResponse params raw, err, r.events⟩

/-- The call `Solr.SearchText` (solr.go, lines 50-55). -/
def Solr.SearchText [Inhabited SR] (rt : Runtime D δ ε ρ) (dc : Decls D δ ε ρ γ P SR)
    (s : Solr) (text : String) : Ret SR :=
  let options : List (String × String) := []
  let facets : List (String × String) := []
  let params := dc.NewSearchParams text options facets
  s.Search rt dc params

end Code

/-! ## Stub transport

A fixed transport and fixed declarations, on which the calls can be evaluated:
documents are strings, the sections of the envelope hold no other field, the
search parameters are the free text. -/

/-- The envelope of the stub: documents are strings, no other field. -/
abbrev StubRaw : Type := responseRaw String Unit Unit Unit

/-- The stub envelope with the given documents and trace. -/
def stubEnvelope (docs : List String) (trace : String) : StubRaw :=
  ⟨⟨docs, ()⟩, ⟨trace, ()⟩, ()⟩

/-- A response of the stub transport whose body was read in full. -/
def stubResponse (code : Int) (status : String) (contentType : List String)
    (body : String) : Response :=
  { Status := status, StatusCode := code,
    Header := fun k => if k = "Content-Type" then contentType else [],
    Body := (body, none) }

/-- A stub runtime: every URL gets the outcome `got`, every body decodes to
`decoded`; the error section is a struct `solr.errorRaw` with the one field
`Trace`. -/
def stubRuntime (got : Except GoError Response) (decoded : StubRaw × Option GoError) :
    Runtime String Unit Unit Unit :=
  { http_Get := fun _ => got,
    json_Unmarshal := fun _ => decoded,
    isPrintWide := fun _ => false,
    goSyntaxBefore := fun _ => "solr.errorRaw\x7b",
    goSyntaxAfter := fun _ => "\x7d" }

/-- Stub declarations: the query string is `q=` followed by the text, the
search response pairs the parameters with the documents. -/
def stubDecls : Decls String Unit Unit Unit Unit String (String × List String) :=
  { GetParams_toSolrQueryString := fun p => "q=" ++ p.Q,
    SearchParams_toSolrQueryString := fun p => "q=" ++ p,
    NewSearchParams := fun text _ _ => text,
    NewSearchResponse := fun p raw => (p, raw.Data.Documents) }

/-- The client of the examples. -/
def stubClient : Solr := New "http://host/core" false

/-- The effects of `httpGet` once `http.Get` has returned a response. -/
def eventsOf (s : Solr) (url : String) : List Event :=
  (if s.Verbose then [Event.log ("Solr URL: " ++ url)] else []) ++
    [Event.get url, Event.close]

/-- The request URL of `Get`: `s.CoreUrl + "/select?" + params.toSolrQueryString()`. -/
def getUrl {D δ ε ρ γ P SR : Type} (dc : Decls D δ ε ρ γ P SR) (s : Solr)
    (params : GetParams γ) : String :=
  s.CoreUrl ++ "/select?" ++ dc.GetParams_toSolrQueryString params

/-- The request URL of `Search`: `s.CoreUrl + "/select?" + params.toSolrQueryString()`. -/
def searchUrl {D δ ε ρ γ P SR : Type} (dc : Decls D δ ε ρ γ P SR) (s : Solr)
    (params : P) : String :=
  s.CoreUrl ++ "/select?" ++ dc.SearchParams_toSolrQueryString params

/-- A rune that `strconv.Quote` copies unchanged: printable, and neither the
double quote nor the backslash. -/
def PlainRune (wide : Char → Bool) (c : Char) : Prop :=
  c ≠ '"' ∧ c ≠ '\\' ∧ IsPrint wide c = true

instance (wide : Char → Bool) (c : Char) : Decidable (PlainRune wide c) :=
  inferInstanceAs (Decidable (_ ∧ _ ∧ _))

/-- The stub response: status 200, JSON content type. -/
def okResponse : Response := stubResponse 200 "200 OK" ["application/json"] "{}"

/-- The stub transport answering 200 with an envelope of the given documents and
trace. -/
def stubOk (docs : List String) (trace : String) : Runtime String Unit Unit Unit :=
  stubRuntime (.ok okResponse) (stubEnvelope docs trace, none)

/-- The stub transport answering 500 with the body `core unavailable`; the body
would decode to a well-formed envelope. -/
def stub500 : Runtime String Unit Unit Unit :=
  stubRuntime (.ok (stubResponse 500 "500 Internal Server Error" [] "core unavailable"))
    (stubEnvelope ["a"] "", none)

/-- The stub transport answering 200 with an HTML page, declared `text/html`,
on which the decoder fails. -/
def stubHtml : Runtime String Unit Unit Unit :=
  stubRuntime (.ok (stubResponse 200 "200 OK" ["text/html"] "<html></html>"))
    (responseRaw.zero, some ⟨"invalid character '<' looking for beginning of value"⟩)

/-- The stub transport answering 200 with a well-formed envelope that holds a
document and the trace `boom`. -/
def stubBoom : Runtime String Unit Unit Unit :=
  stubRuntime
    (.ok (stubResponse 200 "200 OK" ["application/json"]
      "\x7b\"data\":\x7b\"documents\":[\"a\"]\x7d,\"error\":\x7b\"trace\":\"boom\"\x7d\x7d"))
    (stubEnvelope ["a"] "boom", none)

/-- The stub transport answering 200 with an envelope whose trace is a number:
the decoder fills in the document and reports the mismatch. -/
def stubMismatch : Runtime String Unit Unit Unit :=
  stubRuntime
    (.ok (stubResponse 200 "200 OK" []
      "\x7b\"data\":\x7b\"documents\":[\"a\"]\x7d,\"error\":\x7b\"trace\":5\x7d\x7d"))
    (stubEnvelope ["a"] "",
      some ⟨"json: cannot unmarshal number into Go struct field responseRaw.error.trace of type string"⟩)

/-- The stub transport answering 200 with a well-formed envelope whose trace is
the two lines `a` and `b`. -/
def stubTwoLines : Runtime String Unit Unit Unit :=
  stubRuntime
    (.ok (stubResponse 200 "200 OK" ["application/json"]
      "\x7b\"error\":\x7b\"trace\":\"a\\nb\"\x7d\x7d"))
    (stubEnvelope [] "a\nb", none)

/-- The stub transport answering with the given status code and a body that
decodes to the empty envelope. -/
def stubCode (code : Int) : Runtime String Unit Unit Unit :=
  stubRuntime (.ok (stubResponse code "status" ["application/json"] "{}"))
    (stubEnvelope [] "", none)

/-- A response of status 500 whose body read fails part-way: `ioutil.ReadAll`
returns the bytes read so far and the error `unexpected EOF`. -/
def failedRead500 : Response :=
  { Status := "500 Internal Server Error", StatusCode := 500,
    Header := fun _ => [],
    Body := ("core un", some ⟨"unexpected EOF"⟩) }

/-- The stub transport answering with `failedRead500`. -/
def stubReadFails : Runtime String Unit Unit Unit :=
  stubRuntime (.ok failedRead500) (stubEnvelope [] "", none)

/-! ## Lemmas on texts -/

/-- A text occurs in itself. -/
theorem Contains.refl (s : String) : Contains s s :=
  List.infix_refl s.data

/-- What occurs in `a` occurs in `a ++ b`. -/
theorem Contains.append_left {a sub : String} (b : String) (h : Contains a sub) :
    Contains (a ++ b) sub := by
  obtain ⟨u, v, huv⟩ := h
  refine ⟨u, v ++ b.data, ?_⟩
  simp [String.data_append, ← huv]

/-- What occurs in `b` occurs in `a ++ b`. -/
theorem Contains.append_right {b sub : String} (a : String) (h : Contains b sub) :
    Contains (a ++ b) sub := by
  obtain ⟨u, v, huv⟩ := h
  refine ⟨a.data ++ u, v, ?_⟩
  simp [String.data_append, ← huv]

/-- Every element occurs in the space-separated print of the slice. -/
theorem fmtElems_contains (xs : List String) (c : String) (hc : c ∈ xs) :
    Contains (fmtElems xs) c := by
  induction xs with
  | nil => simp at hc
  | cons x rest ih =>
    cases rest with
    | nil =>
      simp only [List.mem_singleton] at hc
      subst hc
      exact Contains.refl _
    | cons y rest2 =>
      rcases List.mem_cons.1 hc with h | h
      · subst h
        exact Contains.append_left _ (Contains.append_left _ (Contains.refl _))
      · exact Contains.append_right _ (ih h)

/-- Every element occurs in the `%s` print of the slice. -/
theorem fmtStrings_contains (xs : List String) (c : String) (hc : c ∈ xs) :
    Contains (fmtStrings xs) c :=
  Contains.append_left _ (Contains.append_right _ (fmtElems_contains xs c hc))

/-- A plain rune is copied unchanged. -/
theorem appendEscapedRune_plain (wide : Char → Bool) (c : Char) (h : PlainRune wide c) :
    appendEscapedRune wide c = [c] := by
  obtain ⟨h1, h2, h3⟩ := h
  simp [appendEscapedRune, h1, h2, h3]

/-- A text of plain runes is copied unchanged. -/
theorem flatMap_appendEscapedRune_plain (wide : Char → Bool) (l : List Char)
    (h : ∀ c ∈ l, PlainRune wide c) : l.flatMap (appendEscapedRune wide) = l := by
  induction l with
  | nil => rfl
  | cons c cs ih =>
    rw [List.flatMap_cons, appendEscapedRune_plain wide c (h c (List.mem_cons_self _ _)),
      ih (fun x hx => h x (List.mem_cons_of_mem _ hx))]
    rfl

/-- A string of plain runes occurs unchanged between the quotes. -/
theorem Quote_contains_plain (wide : Char → Bool) (t : String)
    (h : ∀ c ∈ t.data, PlainRune wide c) : Contains (Quote wide t) t := by
  refine ⟨['"'], ['"'], ?_⟩
  simp [Quote, flatMap_appendEscapedRune_plain wide t.data h]

/-- A byte slice that is not empty has a positive `len`. -/
theorem len_pos_of_ne_empty (b : String) (h : b ≠ "") : 0 < len b := by
  obtain ⟨cs⟩ := b
  cases cs with
  | nil => exact absurd rfl h
  | cons c cs =>
    show 0 < String.utf8ByteSize.go cs + c.utf8Size
    exact Nat.add_pos_right _ (Char.utf8Size_pos c)

/-! ## The paths of `httpGet` -/

section Paths

variable {D δ ε ρ γ P SR : Type} [Inhabited δ] [Inhabited ε] [Inhabited ρ]

/-- Path 1 (line 63): `http.Get` failed. -/
theorem httpGet_request_failed (rt : Runtime D δ ε ρ) (s : Solr) (url : String)
    (err : GoError) (h : rt.http_Get url = .error err) :
    s.httpGet rt url = ⟨responseRaw.zero, some err,
      (if s.Verbose then [Event.log ("Solr URL: " ++ url)] else []) ++ [Event.get url]⟩ := by
  simp [Solr.httpGet, h]

/-- Path 2 (line 69): reading the body failed. -/
theorem httpGet_read_failed (rt : Runtime D δ ε ρ) (s : Solr) (url : String)
    (r : Response) (body : String) (err : GoError) (h : rt.http_Get url = .ok r)
    (hb : r.Body = (body, some err)) :
    s.httpGet rt url = ⟨responseRaw.zero, some err, eventsOf s url⟩ := by
  simp [Solr.httpGet, h, hb, eventsOf]

/-- Path 3 (lines 72-78): status code outside 200..299. -/
theorem httpGet_bad_status (rt : Runtime D δ ε ρ) (s : Solr) (url : String)
    (r : Response) (body : String) (h : rt.http_Get url = .ok r)
    (hb : r.Body = (body, none)) (hc : r.StatusCode < 200 ∨ r.StatusCode > 299) :
    s.httpGet rt url = ⟨responseRaw.zero,
      some (errorsNew (if len body > 0 then "HTTP Status: " ++ r.Status ++ ". " ++
        ("Body: " ++ body) else "HTTP Status: " ++ r.Status ++ ". ")),
      eventsOf s url⟩ := by
  simp [Solr.httpGet, h, hb, hc, eventsOf]

/-- Path 4 (lines 86-89): the envelope decodes and carries a trace. -/
theorem httpGet_service_error (rt : Runtime D δ ε ρ) (s : Solr) (url : String)
    (r : Response) (body : String) (response : responseRaw D δ ε ρ)
    (h : rt.http_Get url = .ok r) (hb : r.Body = (body, none))
    (hc : ¬ (r.StatusCode < 200 ∨ r.StatusCode > 299))
    (hd : rt.json_Unmarshal body = (response, none)) (ht : response.Error.Trace ≠ "") :
    s.httpGet rt url = ⟨response,
      some (errorsNew ("Solr Error. " ++ goSyntax rt response.Error)), eventsOf s url⟩ := by
  simp [Solr.httpGet, h, hb, hc, hd, ht, eventsOf]

/-- Path 5 (line 98 with a nil error): the envelope decodes, no trace. -/
theorem httpGet_success (rt : Runtime D δ ε ρ) (s : Solr) (url : String)
    (r : Response) (body : String) (response : responseRaw D δ ε ρ)
    (h : rt.http_Get url = .ok r) (hb : r.Body = (body, none))
    (hc : ¬ (r.StatusCode < 200 ∨ r.StatusCode > 299))
    (hd : rt.json_Unmarshal body = (response, none)) (ht : response.Error.Trace = "") :
    s.httpGet rt url = ⟨response, none, eventsOf s url⟩ := by
  simp [Solr.httpGet, h, hb, hc, hd, ht, eventsOf]

/-- Path 6 (lines 91-96): the body does not decode. -/
theorem httpGet_decode_failed (rt : Runtime D δ ε ρ) (s : Solr) (url : String)
    (r : Response) (body : String) (response : responseRaw D δ ε ρ) (err : GoError)
    (h : rt.http_Get url = .ok r) (hb : r.Body = (body, none))
    (hc : ¬ (r.StatusCode < 200 ∨ r.StatusCode > 299))
    (hd : rt.json_Unmarshal body = (response, some err)) :
    s.httpGet rt url = ⟨response,
      some (if (r.Header "Content-Type").length > 0 then
        errorsNew (err.text ++ ". Solr's response Content-Type: " ++
          fmtStrings (r.Header "Content-Type"))
      else err), eventsOf s url⟩ := by
  by_cases hl : (r.Header "Content-Type").length > 0 <;>
    simp [Solr.httpGet, h, hb, hc, hd, hl, eventsOf]

/-- On every path `httpGet` issues one request, to the URL it was given. -/
theorem httpGet_get_events (rt : Runtime D δ ε ρ) (s : Solr) (url u : String) :
    Event.get u ∈ (s.httpGet rt url).events ↔ u = url := by
  have hev : Event.get u ∈ eventsOf s url ↔ u = url := by
    unfold eventsOf
    split_ifs <;> simp
  cases h : rt.http_Get url with
  | error err =>
    rw [httpGet_request_failed rt s url err h]
    split_ifs <;> simp
  | ok r =>
    cases hb : r.Body with
    | mk body oe =>
      cases oe with
      | some err => rw [httpGet_read_failed rt s url r body err h hb]; exact hev
      | none =>
        by_cases hc : r.StatusCode < 200 ∨ r.StatusCode > 299
        · rw [httpGet_bad_status rt s url r body h hb hc]; exact hev
        · cases hd : rt.json_Unmarshal body with
          | mk response oe2 =>
            cases oe2 with
            | some err =>
              rw [httpGet_decode_failed rt s url r body response err h hb hc hd]; exact hev
            | none =>
              by_cases ht : response.Error.Trace = ""
              · rw [httpGet_success rt s url r body response h hb hc hd ht]; exact hev
              · rw [httpGet_service_error rt s url r body response h hb hc hd ht]; exact hev

/-- `Get` hands a transport error on, with the empty document. -/
theorem Get_of_httpGet_err [Inhabited D] (rt : Runtime D δ ε ρ)
    (dc : Decls D δ ε ρ γ P SR) (s : Solr) (params : GetParams γ) (e : GoError)
    (h : (s.httpGet rt (s.CoreUrl ++ "/select?" ++
      dc.GetParams_toSolrQueryString params)).err = some e) :
    s.Get rt dc params = some ⟨default, some e, (s.httpGet rt (s.CoreUrl ++ "/select?" ++
      dc.GetParams_toSolrQueryString params)).events⟩ := by
  simp [Solr.Get, h]

/-- `Search` hands a transport error on, with the empty response. -/
theorem Search_of_httpGet_err [Inhabited SR] (rt : Runtime D δ ε ρ)
    (dc : Decls D δ ε ρ γ P SR) (s : Solr) (params : P) (e : GoError)
    (h : (s.httpGet rt (s.CoreUrl ++ "/select?" ++
      dc.SearchParams_toSolrQueryString params)).err = some e) :
    s.Search rt dc params = ⟨default, some e, (s.httpGet rt (s.CoreUrl ++ "/select?" ++
      dc.SearchParams_toSolrQueryString params)).events⟩ := by
  simp [Solr.Search, h]

/-- `Search` performs the effects of the transport and no other. -/
theorem Search_events [Inhabited SR] (rt : Runtime D δ ε ρ) (dc : Decls D δ ε ρ γ P SR)
    (s : Solr) (params : P) :
    (s.Search rt dc params).events = (s.httpGet rt (searchUrl dc s params)).events := by
  unfold Solr.Search searchUrl
  simp only []
  split_ifs <;> rfl

/-- `Get` never panics: the index expression is evaluated on a list of exactly
one element. -/
theorem Get_isSome [Inhabited D] (rt : Runtime D δ ε ρ) (dc : Decls D δ ε ρ γ P SR)
    (s : Solr) (params : GetParams γ) : (s.Get rt dc params).isSome = true := by
  unfold Solr.Get
  simp only []
  split_ifs with h1 h2 h3
  · rfl
  · rfl
  · rfl
  · cases hd : (s.httpGet rt (s.CoreUrl ++ "/select?" ++
      dc.GetParams_toSolrQueryString params)).val.Data.Documents with
    | nil => simp [hd] at h2
    | cons d ds => simp

end Paths

/-! ## The claims -/

section Claims

variable {D δ ε ρ γ P SR : Type} [Inhabited δ] [Inhabited ε] [Inhabited ρ]

/-- C1: when the transport succeeds with an envelope of two or more documents,
`Get` returns (it does not panic) the empty document, whatever the list holds,
and a non-nil error whose message contains the query expression `params.Q`. -/
theorem Get_ambiguous [Inhabited D] (rt : Runtime D δ ε ρ) (dc : Decls D δ ε ρ γ P SR)
    (s : Solr) (params : GetParams γ) (raw : responseRaw D δ ε ρ) (ev : List Event)
    (hok : s.httpGet rt (getUrl dc s params) = ⟨raw, none, ev⟩)
    (hcount : 2 ≤ raw.Data.Documents.length) :
    ∃ e : GoError, s.Get rt dc params = some ⟨default, some e, ev⟩ ∧
      e = errorsNew ("More than one document was found (Q=" ++ params.Q ++ ")") ∧
      Contains e.text params.Q := by
  refine ⟨_, ?_, rfl, ?_⟩
  · have h0 : raw.Data.Documents.length ≠ 0 := by omega
    have h1 : raw.Data.Documents.length > 1 := by omega
    unfold getUrl at hok
    simp [Solr.Get, hok, h0, h1]
  · exact Contains.append_left _ (Contains.append_right _ (Contains.refl _))

/-- C1 on the stub: the envelope holds the documents `a` and `b`. -/
theorem Get_ambiguous_witness :
    ∃ e : GoError, stubClient.Get (stubOk ["a", "b"] "") stubDecls ⟨"id:1", ()⟩ =
        some ⟨default, some e, eventsOf stubClient "http://host/core/select?q=id:1"⟩ ∧
      e = errorsNew ("More than one document was found (Q=" ++ "id:1" ++ ")") ∧
      Contains e.text "id:1" :=
  Get_ambiguous (stubOk ["a", "b"] "") stubDecls stubClient ⟨"id:1", ()⟩
    (stubEnvelope ["a", "b"] "") _ rfl (by decide)

/-- C2: when the transport succeeds with an envelope of at most one document,
`Get` returns (it does not panic on `Documents[0]`) a nil error together with
the empty document when the list is empty, the only document of the list when
it has one. -/
theorem Get_at_most_one [Inhabited D] (rt : Runtime D δ ε ρ) (dc : Decls D δ ε ρ γ P SR)
    (s : Solr) (params : GetParams γ) (raw : responseRaw D δ ε ρ) (ev : List Event)
    (hok : s.httpGet rt (getUrl dc s params) = ⟨raw, none, ev⟩)
    (hcount : raw.Data.Documents.length ≤ 1) :
    (raw.Data.Documents = [] → s.Get rt dc params = some ⟨default, none, ev⟩) ∧
      (∀ d, raw.Data.Documents = [d] → s.Get rt dc params = some ⟨d, none, ev⟩) ∧
      (raw.Data.Documents = [] ∨ ∃ d, raw.Data.Documents = [d]) := by
  unfold getUrl at hok
  refine ⟨fun hd => ?_, fun d hd => ?_, ?_⟩
  · simp [Solr.Get, hok, hd]
  · simp [Solr.Get, hok, hd]
  · cases hd : raw.Data.Documents with
    | nil => exact Or.inl rfl
    | cons d ds =>
      cases ds with
      | nil => exact Or.inr ⟨d, rfl⟩
      | cons d2 ds2 => simp [hd] at hcount

/-- C2 on the stub: one document, then none. -/
theorem Get_at_most_one_witness :
    stubClient.Get (stubOk ["a"] "") stubDecls ⟨"id:1", ()⟩ =
        some ⟨"a", none, eventsOf stubClient "http://host/core/select?q=id:1"⟩ ∧
      stubClient.Get (stubOk [] "") stubDecls ⟨"id:1", ()⟩ =
        some ⟨default, none, eventsOf stubClient "http://host/core/select?q=id:1"⟩ :=
  ⟨(Get_at_most_one (stubOk ["a"] "") stubDecls stubClient ⟨"id:1", ()⟩
      (stubEnvelope ["a"] "") _ rfl (by decide)).2.1 "a" rfl,
    (Get_at_most_one (stubOk [] "") stubDecls stubClient ⟨"id:1", ()⟩
      (stubEnvelope [] "") _ rfl (by decide)).1 rfl⟩

/-- C3, counterexample: a response of status 500 whose body read fails. The
read error is returned at line 69, before the status is tested at line 72:
the message is `unexpected EOF` and holds neither the status line nor the bytes
read. -/
theorem httpGet_read_error_hides_status :
    stubReadFails.http_Get "http://host/core/select?q=x" = .ok failedRead500 ∧
      (failedRead500.StatusCode < 200 ∨ failedRead500.StatusCode > 299) ∧
      failedRead500.Status = "500 Internal Server Error" ∧
      failedRead500.Body = ("core un", some ⟨"unexpected EOF"⟩) ∧
      stubClient.httpGet stubReadFails "http://host/core/select?q=x" =
        ⟨responseRaw.zero, some ⟨"unexpected EOF"⟩,
          eventsOf stubClient "http://host/core/select?q=x"⟩ ∧
      ¬ Contains "unexpected EOF" "500 Internal Server Error" ∧
      ¬ Contains "unexpected EOF" "core un" := by
  refine ⟨rfl, Or.inr (by decide), rfl, rfl, rfl, by decide, by decide⟩

/-- C3, amended: for a response whose body was read without error and whose
status code is below 200 or above 299, whatever its body and whatever the body
would decode to, `httpGet` returns the zero envelope and a non-nil error whose
message contains the status line and, when the body is not empty, the body
text; `Get` and `Search` on that URL return the same error with the empty
document, the empty search response. -/
theorem httpGet_status_error [Inhabited D] [Inhabited SR] (rt : Runtime D δ ε ρ)
    (dc : Decls D δ ε ρ γ P SR) (s : Solr) (url : String) (r : Response) (body : String)
    (h : rt.http_Get url = .ok r) (hb : r.Body = (body, none))
    (hc : r.StatusCode < 200 ∨ r.StatusCode > 299) :
    ∃ e : GoError, s.httpGet rt url = ⟨responseRaw.zero, some e, eventsOf s url⟩ ∧
      Contains e.text r.Status ∧ (body ≠ "" → Contains e.text body) ∧
      (∀ params : GetParams γ, getUrl dc s params = url →
        s.Get rt dc params = some ⟨default, some e, eventsOf s url⟩) ∧
      (∀ params : P, searchUrl dc s params = url →
        s.Search rt dc params = ⟨default, some e, eventsOf s url⟩) := by
  have hg := httpGet_bad_status rt s url r body h hb hc
  refine ⟨_, hg, ?_, ?_, ?_, ?_⟩
  · simp only [errorsNew]
    split_ifs
    · exact Contains.append_left _ (Contains.append_left _
        (Contains.append_right _ (Contains.refl _)))
    · exact Contains.append_left _ (Contains.append_right _ (Contains.refl _))
  · intro hne
    have hlen : 0 < len body := len_pos_of_ne_empty body hne
    simp only [errorsNew, gt_iff_lt, hlen, if_true]
    exact Contains.append_right _ (Contains.append_right _ (Contains.refl _))
  · intro params hu
    subst hu
    have := Get_of_httpGet_err rt dc s params _ (by
      show (s.httpGet rt (getUrl dc s params)).err = _
      rw [hg])
    rw [this]
    show some (Ret.mk default _ (s.httpGet rt (getUrl dc s params)).events) = _
    rw [hg]
  · intro params hu
    subst hu
    have := Search_of_httpGet_err rt dc s params _ (by
      show (s.httpGet rt (searchUrl dc s params)).err = _
      rw [hg])
    rw [this]
    show Ret.mk default _ (s.httpGet rt (searchUrl dc s params)).events = _
    rw [hg]

/-- C3 as amended, on the stub: status 500 with the body `core unavailable`,
read in full. -/
theorem httpGet_status_error_witness :
    ∃ e : GoError, stubClient.httpGet stub500 "http://host/core/select?q=x" =
        ⟨responseRaw.zero, some e, eventsOf stubClient "http://host/core/select?q=x"⟩ ∧
      Contains e.text "500 Internal Server Error" ∧
      Contains e.text "core unavailable" ∧
      stubClient.Get stub500 stubDecls ⟨"x", ()⟩ =
        some ⟨default, some e, eventsOf stubClient "http://host/core/select?q=x"⟩ ∧
      stubClient.Search stub500 stubDecls "x" =
        ⟨default, some e, eventsOf stubClient "http://host/core/select?q=x"⟩ := by
  obtain ⟨e, h1, h2, h3, h4, h5⟩ := httpGet_status_error stub500 stubDecls stubClient
    "http://host/core/select?q=x"
    (stubResponse 500 "500 Internal Server Error" [] "core unavailable")
    "core unavailable" rfl rfl (Or.inr (by decide))
  exact ⟨e, h1, h2, h3 (by decide), h4 ⟨"x", ()⟩ rfl, h5 "x" rfl⟩

/-- C5: for a 2xx response whose body fails to decode, `httpGet` returns a
non-nil error; when the header holds at least one `Content-Type` value the
message contains the text of the decode error and every declared content type,
and when it holds none the error is the decode error itself. `Get` and `Search`
on that URL return the same error. -/
theorem httpGet_decode_error [Inhabited D] [Inhabited SR] (rt : Runtime D δ ε ρ)
    (dc : Decls D δ ε ρ γ P SR) (s : Solr) (url : String) (r : Response) (body : String)
    (response : responseRaw D δ ε ρ) (derr : GoError)
    (h : rt.http_Get url = .ok r) (hb : r.Body = (body, none))
    (hc : 200 ≤ r.StatusCode ∧ r.StatusCode ≤ 299)
    (hd : rt.json_Unmarshal body = (response, some derr)) :
    ∃ e : GoError, (s.httpGet rt url).err = some e ∧
      (0 < (r.Header "Content-Type").length →
        Contains e.text derr.text ∧ ∀ ct ∈ r.Header "Content-Type", Contains e.text ct) ∧
      ((r.Header "Content-Type").length = 0 → e = derr) ∧
      (∀ params : GetParams γ, getUrl dc s params = url →
        ∃ res, s.Get rt dc params = some res ∧ res.err = some e) ∧
      (∀ params : P, searchUrl dc s params = url → (s.Search rt dc params).err = some e) := by
  have hc2 : ¬ (r.StatusCode < 200 ∨ r.StatusCode > 299) := by omega
  have hg := httpGet_decode_failed rt s url r body response derr h hb hc2 hd
  refine ⟨_, by rw [hg], ?_, ?_, ?_, ?_⟩
  · intro hl
    simp only [gt_iff_lt, hl, if_true, errorsNew]
    refine ⟨Contains.append_left _ (Contains.append_left _ (Contains.refl _)), ?_⟩
    intro ct hct
    exact Contains.append_right _ (fmtStrings_contains _ ct hct)
  · intro hl
    simp [hl]
  · intro params hu
    subst hu
    exact ⟨_, Get_of_httpGet_err rt dc s params _ (by
      show (s.httpGet rt (getUrl dc s params)).err = _
      rw [hg]), rfl⟩
  · intro params hu
    subst hu
    rw [Search_of_httpGet_err rt dc s params _ (by
      show (s.httpGet rt (searchUrl dc s params)).err = _
      rw [hg])]

/-- C5 on the stub: status 200, an HTML body declared `text/html`. -/
theorem httpGet_decode_error_witness :
    ∃ e : GoError, (stubClient.httpGet stubHtml "http://host/core/select?q=x").err = some e ∧
      Contains e.text "invalid character '<' looking for beginning of value" ∧
      Contains e.text "text/html" := by
  obtain ⟨e, he, hct, -⟩ := httpGet_decode_error stubHtml stubDecls stubClient
    "http://host/core/select?q=x" (stubResponse 200 "200 OK" ["text/html"] "<html></html>")
    "<html></html>" responseRaw.zero
    ⟨"invalid character '<' looking for beginning of value"⟩ rfl rfl (by decide) rfl
  exact ⟨e, he, (hct (by decide)).1, (hct (by decide)).2 "text/html" (by decide)⟩

/-- C7: whenever `Get`, `Search` or `SearchText` returns a non-nil error, the
value returned with it is the zero value: the empty document, the empty search
response. -/
theorem error_with_zero_value [Inhabited D] [Inhabited SR] (rt : Runtime D δ ε ρ)
    (dc : Decls D δ ε ρ γ P SR) (s : Solr) :
    (∀ (params : GetParams γ) (res : Ret D),
        s.Get rt dc params = some res → res.err ≠ none → res.val = default) ∧
      (∀ params : P, (s.Search rt dc params).err ≠ none →
        (s.Search rt dc params).val = default) ∧
      (∀ text : String, (s.SearchText rt dc text).err ≠ none →
        (s.SearchText rt dc text).val = default) := by
  have hsearch : ∀ params : P, (s.Search rt dc params).err ≠ none →
      (s.Search rt dc params).val = default := by
    intro params
    unfold Solr.Search
    simp only []
    split_ifs with h1
    · intro _; rfl
    · intro h; exact absurd h h1
  refine ⟨?_, hsearch, fun text => hsearch _⟩
  intro params res
  unfold Solr.Get
  simp only []
  split_ifs with h1 h2 h3
  · intro h _; cases h; rfl
  · intro h _; cases h; rfl
  · intro h _; cases h; rfl
  · push_neg at h1
    split
    · intro h hne; cases h; exact absurd h1 hne
    · intro h; cases h

/-- C8: `Search` returns the error of the transport unchanged, so a nil error
exactly when the transport returned one; with a nil error its value is
`NewSearchResponse(params, raw)` on the caller's parameters and the envelope
the transport returned, and it performs no effect beyond those of the transport. -/
theorem Search_wraps_transport [Inhabited SR] (rt : Runtime D δ ε ρ)
    (dc : Decls D δ ε ρ γ P SR) (s : Solr) (params : P) :
    ((s.Search rt dc params).err = none ↔
        (s.httpGet rt (searchUrl dc s params)).err = none) ∧
      ((s.httpGet rt (searchUrl dc s params)).err = none →
        (s.Search rt dc params).val =
          dc.NewSearchResponse params (s.httpGet rt (searchUrl dc s params)).val) ∧
      (s.Search rt dc params).err = (s.httpGet rt (searchUrl dc s params)).err ∧
      (s.Search rt dc params).events = (s.httpGet rt (searchUrl dc s params)).events := by
  unfold Solr.Search searchUrl
  simp only []
  split_ifs with h1
  · exact ⟨Iff.rfl, fun h => absurd h h1, rfl, rfl⟩
  · exact ⟨Iff.rfl, fun _ => rfl, rfl, rfl⟩

/-- C9: `SearchText(text)` is `Search(NewSearchParams(text, {}, {}))`: same
value, same error, same effects; the one request it issues goes to the URL of
that search. -/
theorem SearchText_eq_Search [Inhabited SR] (rt : Runtime D δ ε ρ)
    (dc : Decls D δ ε ρ γ P SR) (s : Solr) (text : String) :
    s.SearchText rt dc text = s.Search rt dc (dc.NewSearchParams text [] []) ∧
      ∀ u : String, Event.get u ∈ (s.SearchText rt dc text).events ↔
        u = searchUrl dc s (dc.NewSearchParams text [] []) := by
  refine ⟨rfl, fun u => ?_⟩
  show Event.get u ∈ (s.Search rt dc (dc.NewSearchParams text [] [])).events ↔ _
  rw [Search_events rt dc s _]
  exact httpGet_get_events rt s _ u

/-- C10: `httpGet` returns a nil error exactly when the request succeeded, the
body was read, the status code is between 200 and 299 inclusive, the body
decodes and the decoded trace is empty, whatever the other fields of the error
section hold; it then returns the decoded envelope. Codes 199 and 300 give an
error. -/
theorem httpGet_nil_iff (rt : Runtime D δ ε ρ) (s : Solr) (url : String) :
    ((s.httpGet rt url).err = none ↔
        ∃ (r : Response) (body : String) (response : responseRaw D δ ε ρ),
          rt.http_Get url = .ok r ∧ r.Body = (body, none) ∧
          200 ≤ r.StatusCode ∧ r.StatusCode ≤ 299 ∧
          rt.json_Unmarshal body = (response, none) ∧ response.Error.Trace = "") ∧
      (∀ (r : Response) (body : String) (response : responseRaw D δ ε ρ),
        rt.http_Get url = .ok r → r.Body = (body, none) →
        200 ≤ r.StatusCode → r.StatusCode ≤ 299 →
        rt.json_Unmarshal body = (response, none) → response.Error.Trace = "" →
        s.httpGet rt url = ⟨response, none, eventsOf s url⟩) ∧
      (∀ r : Response, rt.http_Get url = .ok r →
        r.StatusCode = 199 ∨ r.StatusCode = 300 → (s.httpGet rt url).err ≠ none) := by
  have hsucc : ∀ (r : Response) (body : String) (response : responseRaw D δ ε ρ),
      rt.http_Get url = .ok r → r.Body = (body, none) →
      200 ≤ r.StatusCode → r.StatusCode ≤ 299 →
      rt.json_Unmarshal body = (response, none) → response.Error.Trace = "" →
      s.httpGet rt url = ⟨response, none, eventsOf s url⟩ := by
    intro r body response h hb h1 h2 hd ht
    exact httpGet_success rt s url r body response h hb (by omega) hd ht
  have hiff : (s.httpGet rt url).err = none ↔
      ∃ (r : Response) (body : String) (response : responseRaw D δ ε ρ),
        rt.http_Get url = .ok r ∧ r.Body = (body, none) ∧
        200 ≤ r.StatusCode ∧ r.StatusCode ≤ 299 ∧
        rt.json_Unmarshal body = (response, none) ∧ response.Error.Trace = "" := by
    constructor
    · intro hnil
      cases h : rt.http_Get url with
      | error err => rw [httpGet_request_failed rt s url err h] at hnil; cases hnil
      | ok r =>
        cases hb : r.Body with
        | mk body oe =>
          cases oe with
          | some err => rw [httpGet_read_failed rt s url r body err h hb] at hnil; cases hnil
          | none =>
            by_cases hc : r.StatusCode < 200 ∨ r.StatusCode > 299
            · rw [httpGet_bad_status rt s url r body h hb hc] at hnil; cases hnil
            · cases hd : rt.json_Unmarshal body with
              | mk response oe2 =>
                cases oe2 with
                | some err =>
                  rw [httpGet_decode_failed rt s url r body response err h hb hc hd] at hnil
                  cases hnil
                | none =>
                  by_cases ht : response.Error.Trace = ""
                  · exact ⟨r, body, response, rfl, hb, by omega, by omega, hd, ht⟩
                  · rw [httpGet_service_error rt s url r body response h hb hc hd ht] at hnil
                    cases hnil
    · rintro ⟨r, body, response, h, hb, h1, h2, hd, ht⟩
      rw [hsucc r body response h hb h1 h2 hd ht]
  refine ⟨hiff, hsucc, ?_⟩
  intro r h hcode hnil
  obtain ⟨r2, body, response, h2, -, h200, h299, -, -⟩ := hiff.1 hnil
  rw [h] at h2
  cases h2
  omega

/-- C6, on the code: on the service-error path and on the decode-failure path
`httpGet` returns a non-nil error together with the envelope the decoder
filled in, which is not the zero envelope. -/
theorem httpGet_error_with_envelope :
    (stubClient.httpGet stubBoom "http://host/core/select?q=x").err =
        some (errorsNew "Solr Error. solr.errorRaw\x7bTrace:\"boom\"\x7d") ∧
      (stubClient.httpGet stubBoom "http://host/core/select?q=x").val =
        stubEnvelope ["a"] "boom" ∧
      (stubClient.httpGet stubBoom "http://host/core/select?q=x").val ≠ responseRaw.zero ∧
      (stubClient.httpGet stubMismatch "http://host/core/select?q=x").err =
        some ⟨"json: cannot unmarshal number into Go struct field responseRaw.error.trace of type string"⟩ ∧
      (stubClient.httpGet stubMismatch "http://host/core/select?q=x").val =
        stubEnvelope ["a"] "" ∧
      (stubClient.httpGet stubMismatch "http://host/core/select?q=x").val ≠
        responseRaw.zero := by
  refine ⟨by decide, rfl, ?_, rfl, rfl, ?_⟩
  · intro h
    have := congrArg (fun e : StubRaw => e.Error.Trace) h
    revert this
    decide
  · intro h
    have := congrArg (fun e : StubRaw => e.Data.Documents.length) h
    revert this
    decide

/-- C4, counterexample: a 200 response decoding to a well-formed envelope whose
trace is `a`, a newline, `b`; the error message holds the trace with the newline
escaped and does not contain the trace text. -/
theorem httpGet_trace_escaped :
    stubTwoLines.http_Get "http://host/core/select?q=x" =
        .ok (stubResponse 200 "200 OK" ["application/json"]
          "\x7b\"error\":\x7b\"trace\":\"a\\nb\"\x7d\x7d") ∧
      stubTwoLines.json_Unmarshal "\x7b\"error\":\x7b\"trace\":\"a\\nb\"\x7d\x7d" =
        (stubEnvelope [] "a\nb", none) ∧
      (stubEnvelope [] "a\nb").Error.Trace ≠ "" ∧
      (stubClient.httpGet stubTwoLines "http://host/core/select?q=x").err =
        some (errorsNew "Solr Error. solr.errorRaw\x7bTrace:\"a\\nb\"\x7d") ∧
      ¬ Contains "Solr Error. solr.errorRaw\x7bTrace:\"a\\nb\"\x7d" "a\nb" ∧
      (stubClient.Search stubTwoLines stubDecls "x").err =
        some (errorsNew "Solr Error. solr.errorRaw\x7bTrace:\"a\\nb\"\x7d") := by
  refine ⟨rfl, rfl, by decide, by decide, by decide, by decide⟩

/-- C4, amended: for a 2xx response whose body decodes to a well-formed
envelope with a non-empty trace, `httpGet`, and so `Search` on that URL,
returns a non-nil error whose message contains the trace as `strconv.Quote`
writes it; it contains the trace text itself when every rune of the trace is
printable and is neither a double quote nor a backslash. -/
theorem httpGet_service_error_message [Inhabited SR] (rt : Runtime D δ ε ρ)
    (dc : Decls D δ ε ρ γ P SR) (s : Solr) (url : String) (r : Response) (body : String)
    (response : responseRaw D δ ε ρ)
    (h : rt.http_Get url = .ok r) (hb : r.Body = (body, none))
    (hc : 200 ≤ r.StatusCode ∧ r.StatusCode ≤ 299)
    (hd : rt.json_Unmarshal body = (response, none)) (ht : response.Error.Trace ≠ "") :
    ∃ e : GoError, (s.httpGet rt url).err = some e ∧
      Contains e.text (Quote rt.isPrintWide response.Error.Trace) ∧
      ((∀ c ∈ response.Error.Trace.data, PlainRune rt.isPrintWide c) →
        Contains e.text response.Error.Trace) ∧
      (∀ params : P, searchUrl dc s params = url → (s.Search rt dc params).err = some e) := by
  have hc2 : ¬ (r.StatusCode < 200 ∨ r.StatusCode > 299) := by omega
  have hg := httpGet_service_error rt s url r body response h hb hc2 hd ht
  have hq : Contains (errorsNew ("Solr Error. " ++ goSyntax rt response.Error)).text
      (Quote rt.isPrintWide response.Error.Trace) :=
    Contains.append_right _ (Contains.append_left _ (Contains.append_right _ (Contains.refl _)))
  refine ⟨_, by rw [hg], hq, ?_, ?_⟩
  · intro hplain
    obtain ⟨u, v, huv⟩ := Quote_contains_plain rt.isPrintWide _ hplain
    obtain ⟨u2, v2, huv2⟩ := hq
    exact ⟨u2 ++ u, v ++ v2, by rw [← huv2, ← huv]; simp⟩
  · intro params hu
    subst hu
    rw [Search_of_httpGet_err rt dc s params _ (by
      show (s.httpGet rt (searchUrl dc s params)).err = _
      rw [hg])]

/-- C4 as amended, on the stub: the trace `query parse error`. -/
theorem httpGet_service_error_message_witness :
    ∃ e : GoError,
      (stubClient.httpGet (stubOk [] "query parse error") "http://host/core/select?q=x").err =
        some e ∧
      Contains e.text "query parse error" ∧
      (stubClient.Search (stubOk [] "query parse error") stubDecls "x").err = some e := by
  obtain ⟨e, he, -, hplain, hsearch⟩ := httpGet_service_error_message
    (stubOk [] "query parse error") stubDecls stubClient "http://host/core/select?q=x"
    okResponse "{}" (stubEnvelope [] "query parse error") rfl rfl (by decide) rfl (by decide)
  exact ⟨e, he, hplain (by decide), hsearch "x" rfl⟩

/-- C7 on the stub: the ambiguous-result error of `Get`, the HTTP status error
through `Search` and `SearchText`. -/
theorem error_with_zero_value_witness :
    (∀ res : Ret String, stubClient.Get (stubOk ["a", "b"] "") stubDecls ⟨"id:1", ()⟩ =
        some res → res.err ≠ none ∧ res.val = "") ∧
      (stubClient.Search stub500 stubDecls "x").err ≠ none ∧
      (stubClient.Search stub500 stubDecls "x").val = ("", []) ∧
      (stubClient.SearchText stub500 stubDecls "x").val = ("", []) :=
  ⟨fun res h =>
      have hne : res.err ≠ none := by
        have h2 : some res = some ⟨"", some (errorsNew
            "More than one document was found (Q=id:1)"),
            eventsOf stubClient "http://host/core/select?q=id:1"⟩ := h.symm.trans rfl
        cases h2
        exact fun h3 => Option.noConfusion h3
      ⟨hne, (error_with_zero_value (stubOk ["a", "b"] "") stubDecls stubClient).1
        ⟨"id:1", ()⟩ res h hne⟩,
    by decide,
    (error_with_zero_value stub500 stubDecls stubClient).2.1 "x" (by decide),
    (error_with_zero_value stub500 stubDecls stubClient).2.2 "x" (by decide)⟩

/-- C10 on the stub: the codes 200 and 299 give a nil error and the decoded
envelope, the codes 199 and 300 an error. -/
theorem httpGet_nil_iff_witness :
    stubClient.httpGet (stubCode 200) "u" = ⟨stubEnvelope [] "", none, eventsOf stubClient "u"⟩ ∧
      stubClient.httpGet (stubCode 299) "u" =
        ⟨stubEnvelope [] "", none, eventsOf stubClient "u"⟩ ∧
      (stubClient.httpGet (stubCode 199) "u").err ≠ none ∧
      (stubClient.httpGet (stubCode 300) "u").err ≠ none :=
  ⟨(httpGet_nil_iff (stubCode 200) stubClient "u").2.1 _ "{}" _ rfl rfl (by decide)
      (by decide) rfl rfl,
    (httpGet_nil_iff (stubCode 299) stubClient "u").2.1 _ "{}" _ rfl rfl (by decide)
      (by decide) rfl rfl,
    (httpGet_nil_iff (stubCode 199) stubClient "u").2.2 _ rfl (Or.inl rfl),
    (httpGet_nil_iff (stubCode 300) stubClient "u").2.2 _ rfl (Or.inr rfl)⟩

/-- A successful search on the stub pairs the parameters with the documents, and
`SearchText` issues its one request to the URL of that search. -/
theorem Search_stub_value :
    (stubClient.Search (stubOk ["a", "b"] "") stubDecls "x").val = ("x", ["a", "b"]) ∧
      (stubClient.Search (stubOk ["a", "b"] "") stubDecls "x").err = none ∧
      (stubClient.SearchText (stubOk ["a", "b"] "") stubDecls "x").events =
        [Event.get "http://host/core/select?q=x", Event.close] := by
  refine ⟨rfl, rfl, by decide⟩

end Claims

end solr
